import Mathlib

/-!
Shallow embedding of the embedding service (FastAPI + BGE-m3-ko + Milvus):
`src/embedding_model.py`, `src/milvus_manager.py`, `src/schemas.py`,
`src/main.py`. The SentenceTransformer model and the pymilvus backend are
external collaborators; they are modelled as black boxes following the spec's
EmbeddingProvider / CollectionStore contracts, with the backend-defined parts
(exception types, drop-missing policy) kept as parameters.
-/

namespace EmbeddingService

/-- Opaque JSON-like metadata document (`Dict[str, Any]` in schemas.py);
carried through untouched by every operation. -/
abbrev Metadata := List (String × String)

/-- One row sent to the storage backend: the dict built in the `insert`
handler of src/main.py (text, category, metadata, embedding). -/
structure Row where
  text : String
  category : String
  metadata : Metadata
  embedding : List Float

/-- A stored collection on the backend: name, declared vector dimension,
description, stored rows with their server-assigned auto-increment ids, and
the next id to assign. -/
structure Collection where
  name : String
  dim : Nat
  description : String
  rows : List (Nat × Row)
  nextId : Nat

/-- State of the external Milvus backend: the currently existing
collections. -/
structure MilvusState where
  collections : List Collection

/-- The collection names currently present on the backend. -/
def MilvusState.names (st : MilvusState) : List String :=
  st.collections.map Collection.name

/-- Model of a Python exception raised by the pymilvus client. The service's
search handlers catch `ValueError` specifically (src/main.py), so the model
distinguishes that type from every other backend exception type. -/
inductive PyError where
  | valueError (msg : String)
  | milvusException (msg : String)
deriving DecidableEq

/-- Outcome of a request handler that does not return normally: either an
`HTTPException` raised by the handler itself, or an uncaught backend exception
(which the framework surfaces as a generic 500 server error, not as a
client-visible HTTP status chosen by the handler). -/
inductive HTTPError where
  | httpException (statusCode : Nat) (detail : String)
  | unhandled (e : PyError)
deriving DecidableEq

/-- Modelled from the spec: the storage backend (pymilvus / Milvus server) is
an external black box. The spec fixes that search on a missing collection and
on a dimension mismatch fails, but leaves the concrete Python exception type
backend-defined, and marks the policy for dropping a missing collection
backend-dependent (spec sections 4.2 and 9). Those backend-defined choices are
the fields of this structure: `dropMissing name = none` means dropping a
missing collection is a silent no-op, `some e` means it raises `e`. -/
structure BackendPolicy where
  notFoundErr : String → PyError
  dimErr : String → PyError
  dropMissing : String → Option PyError

-- ── schemas.py request/response models ──

/-- schemas.py `CollectionCreateRequest`. -/
structure CollectionCreateRequest where
  name : String
  dimension : Nat := 1024
  description : String := ""

/-- schemas.py `CollectionResponse`. -/
structure CollectionResponse where
  collection : String
  status : String
deriving DecidableEq

/-- schemas.py `InsertItem`: `embedding` is optional. -/
structure InsertItem where
  text : String
  category : String := ""
  metadata : Metadata := []
  embedding : Option (List Float) := none

/-- schemas.py `InsertRequest`. -/
structure InsertRequest where
  items : List InsertItem
  auto_embed : Bool := true

/-- schemas.py `InsertResponse`. -/
structure InsertResponse where
  insert_count : Nat
deriving DecidableEq

/-- schemas.py `SearchRequest`. -/
structure SearchRequest where
  query : String
  limit : Nat := 5
  output_fields : Option (List String) := none

/-- schemas.py `SearchByVectorRequest`. -/
structure SearchByVectorRequest where
  query_vector : List Float
  limit : Nat := 5
  output_fields : Option (List String) := none

/-- schemas.py `SearchHit`. -/
structure SearchHit where
  id : Nat
  distance : Float
  text : String
  category : String
  metadata : Metadata

/-- schemas.py `SearchResponse`. -/
structure SearchResponse where
  results : List SearchHit
  count : Nat

/-- schemas.py `EmbedBatchResponse`. -/
structure EmbedBatchResponse where
  embeddings : List (List Float)
  dimension : Nat
  count : Nat

-- ── embedding_model.py ──

/-- src/embedding_model.py `EmbeddingModel.DIMENSION`. -/
def DIMENSION : Nat := 1024

/-- src/embedding_model.py `EmbeddingModel.MODEL_NAME`. -/
def MODEL_NAME : String := "dragonkue/BGE-m3-ko"

/-- src/embedding_model.py `EmbeddingModel.encode`: the underlying
SentenceTransformer is an external black box, modelled as the deterministic
text-to-vector function `f`; `tolist()` is the identity on this
representation. -/
def EmbeddingModel.encode (f : String → List Float) (text : String) : List Float :=
  f text

/-- src/embedding_model.py `EmbeddingModel.encode_batch`: one underlying
batch call — elementwise application of the model per the sentence-transformers
batch semantics and the spec's EmbeddingProvider contract — followed by
`tolist()` on each returned vector. -/
def EmbeddingModel.encode_batch (f : String → List Float) (texts : List String) :
    List (List Float) :=
  (texts.map f).map (fun v => v)

-- ── pymilvus client operations (external, black box) ──

/-- pymilvus `list_collections`: the names of the existing collections. -/
def client_list_collections (st : MilvusState) : List String :=
  st.names

/-- Modelled from the spec: pymilvus `create_collection` registers a new
collection under the canonical schema with the given embedding dimension and
description. The manager only calls it when the name is absent. -/
def client_create_collection (st : MilvusState) (name : String) (dim : Nat)
    (description : String) : MilvusState :=
  { collections := st.collections ++
      [{ name := name, dim := dim, description := description, rows := [], nextId := 0 }] }

-- ── milvus_manager.py ──

/-- src/milvus_manager.py `MilvusManager.create_collection`: if the name is
already present among `list_collections` it returns `already_exists` without
touching the backend (no schema or dimension re-validation); otherwise it
creates the collection and returns `created`. -/
def MilvusManager.create_collection (st : MilvusState) (name : String)
    (dim : Nat) (description : String) : MilvusState × CollectionResponse :=
  if name ∈ client_list_collections st then
    (st, { collection := name, status := "already_exists" })
  else
    (client_create_collection st name dim description,
     { collection := name, status := "created" })

/-- src/milvus_manager.py `MilvusManager.list_collections`. -/
def MilvusManager.list_collections (st : MilvusState) : List String :=
  client_list_collections st

-- ── main.py endpoints (collection management) ──

/-- src/main.py `create_collection` endpoint: delegates to the manager. -/
def create_collection (st : MilvusState) (req : CollectionCreateRequest) :
    MilvusState × CollectionResponse :=
  MilvusManager.create_collection st req.name req.dimension req.description

/-- src/main.py `list_collections` endpoint. -/
def list_collections (st : MilvusState) : List String :=
  MilvusManager.list_collections st

-- ── insertion ──

/-- The reply dict of pymilvus `insert`: the backend-reported insert count and
the server-assigned primary keys. -/
structure BackendInsertReply where
  insert_cnt : Nat
  ids : List Nat
deriving DecidableEq

/-- Modelled from the spec: pymilvus `insert` appends all given rows to the
collection, assigning consecutive auto-increment primary keys, and reports the
count and the assigned ids; it fails if the collection does not exist. -/
def client_insert (st : MilvusState) (name : String) (data : List Row) :
    Except PyError (MilvusState × BackendInsertReply) :=
  match st.collections.find? (fun c => c.name == name) with
  | none => .error (.milvusException ("collection not found: " ++ name))
  | some col =>
    let ids := (List.range data.length).map (fun i => col.nextId + i)
    let col' := { col with rows := col.rows ++ ids.zip data,
                           nextId := col.nextId + data.length }
    let st' : MilvusState :=
      { collections := st.collections.map (fun c => if c.name == name then col' else c) }
    .ok (st', { insert_cnt := data.length, ids := ids })

/-- The dict returned by src/milvus_manager.py `MilvusManager.insert`:
`insert_count` is computed as `len(data)` from the input, ignoring the
backend-reported count; `ids` is read from the backend reply. -/
structure InsertResult where
  insert_count : Nat
  ids : List Nat
deriving DecidableEq

/-- The response-building step of src/milvus_manager.py `MilvusManager.insert`
(the returned dict), as a function of the input batch and the backend reply. -/
def MilvusManager.insert_response (data : List Row) (reply : BackendInsertReply) :
    InsertResult :=
  { insert_count := data.length, ids := reply.ids }

/-- src/milvus_manager.py `MilvusManager.insert`: one backend insert call,
then the response dict built by `insert_response`. -/
def MilvusManager.insert (st : MilvusState) (name : String) (data : List Row) :
    Except PyError (MilvusState × InsertResult) :=
  match client_insert st name data with
  | .error e => .error e
  | .ok (st', reply) => .ok (st', MilvusManager.insert_response data reply)

/-- The record built for one item in the auto-embed branch of the `insert`
handler in src/main.py: the embedding is computed from the item's text; any
client-supplied embedding field is ignored. -/
def autoRow (f : String → List Float) (item : InsertItem) : Row :=
  { text := item.text, category := item.category, metadata := item.metadata,
    embedding := EmbeddingModel.encode f item.text }

/-- The per-item loop of the `insert` handler in src/main.py: builds one row
dict per item, in input order. With `auto_embed` the embedding is computed
from the text; without it a missing embedding raises HTTP 400, aborting the
request before the storage call. -/
def buildInsertData (f : String → List Float) (autoEmbed : Bool) :
    List InsertItem → Except HTTPError (List Row)
  | [] => .ok []
  | item :: rest =>
    let embeddingStep : Except HTTPError (List Float) :=
      if autoEmbed then
        .ok (EmbeddingModel.encode f item.text)
      else
        match item.embedding with
        | none => .error (.httpException 400
            "auto_embed=False일 때 각 item에 embedding이 필요합니다.")
        | some e => .ok e
    match embeddingStep with
    | .error e => .error e
    | .ok embedding =>
      match buildInsertData f autoEmbed rest with
      | .error e => .error e
      | .ok tail =>
        .ok ({ text := item.text, category := item.category,
               metadata := item.metadata, embedding := embedding } :: tail)

/-- Observable outcome of one `insert` request: the HTTP response, the list of
`MilvusManager.insert` calls issued to the storage layer (collection name and
full batch of each call), and the resulting backend state. -/
structure InsertOutcome where
  response : Except HTTPError InsertResponse
  storeInsertCalls : List (String × List Row)
  finalState : MilvusState

/-- src/main.py `insert` endpoint: builds the full batch, then issues exactly
one `MilvusManager.insert` call with it and returns the reported
`insert_count`. A validation failure while building aborts before any storage
call; a backend exception propagates uncaught. -/
def insert (f : String → List Float) (st : MilvusState) (name : String)
    (req : InsertRequest) : InsertOutcome :=
  match buildInsertData f req.auto_embed req.items with
  | .error e => { response := .error e, storeInsertCalls := [], finalState := st }
  | .ok data =>
    match MilvusManager.insert st name data with
    | .error e =>
        { response := .error (.unhandled e),
          storeInsertCalls := [(name, data)], finalState := st }
    | .ok (st', result) =>
        { response := .ok { insert_count := result.insert_count },
          storeInsertCalls := [(name, data)], finalState := st' }

-- ── search ──

/-- Modelled from the spec: pymilvus `search` fails when the collection does
not exist, or when a query vector's length differs from the collection's
declared dimension (the concrete exception types are backend-defined and come
from the policy); on success it returns one hit list per query vector. The
external ANN ranking is opaque to this repository and is modelled as the first
`limit` stored rows; the entity of each hit carries the stored row (the
`output_fields` projection never affects the verified claims, so entities are
returned whole). -/
def client_search (P : BackendPolicy) (st : MilvusState) (name : String)
    (queryVectors : List (List Float)) (limit : Nat) :
    Except PyError (List (List (Nat × Float × Row))) :=
  match st.collections.find? (fun c => c.name == name) with
  | none => .error (P.notFoundErr name)
  | some col =>
    if queryVectors.any (fun v => v.length ≠ col.dim) then
      .error (P.dimErr name)
    else
      .ok (queryVectors.map (fun _ =>
        (col.rows.take limit).map (fun r => (r.1, (0.0 : Float), r.2))))

/-- src/milvus_manager.py `MilvusManager.search`: defaults `output_fields` to
text/category/metadata, performs the backend search, and reformats each hit as
an id/distance/entity triple (a value-preserving repackaging; `float()` on the
distance is the identity here). -/
def MilvusManager.search (P : BackendPolicy) (st : MilvusState) (name : String)
    (queryVectors : List (List Float)) (limit : Nat)
    (output_fields : Option (List String)) :
    Except PyError (List (List (Nat × Float × Row))) :=
  let _fields := output_fields.getD ["text", "category", "metadata"]
  match client_search P st name queryVectors limit with
  | .error e => .error e
  | .ok results =>
    .ok (results.map (fun hits => hits.map (fun h => (h.1, h.2.1, h.2.2))))

/-- The hit-mapping loop shared by the two search endpoints in src/main.py:
if the result list is non-empty, map the first hit list to `SearchHit`s,
reading text/category/metadata from the entity (every entity carries all
fields here, so the empty-string/empty-object defaults of `entity.get` never
fire). -/
def toSearchHits (results : List (List (Nat × Float × Row))) : List SearchHit :=
  match results with
  | [] => []
  | first :: _ =>
    first.map (fun h =>
      { id := h.1, distance := h.2.1, text := h.2.2.text,
        category := h.2.2.category, metadata := h.2.2.metadata })

/-- src/main.py `search` endpoint: encodes the query text, searches with a
single-element query-vector batch, converting a backend `ValueError` to
HTTP 404; any other backend exception type propagates uncaught. -/
def search (P : BackendPolicy) (f : String → List Float) (st : MilvusState)
    (name : String) (req : SearchRequest) : Except HTTPError SearchResponse :=
  let queryVector := EmbeddingModel.encode f req.query
  match MilvusManager.search P st name [queryVector] req.limit req.output_fields with
  | .error (.valueError msg) => .error (.httpException 404 msg)
  | .error e => .error (.unhandled e)
  | .ok results =>
    let hits := toSearchHits results
    .ok { results := hits, count := hits.length }

/-- src/main.py `search_by_vector` endpoint: identical to `search` but uses
the caller-supplied vector directly, with no local dimension validation. -/
def search_by_vector (P : BackendPolicy) (st : MilvusState) (name : String)
    (req : SearchByVectorRequest) : Except HTTPError SearchResponse :=
  match MilvusManager.search P st name [req.query_vector] req.limit req.output_fields with
  | .error (.valueError msg) => .error (.httpException 404 msg)
  | .error e => .error (.unhandled e)
  | .ok results =>
    let hits := toSearchHits results
    .ok { results := hits, count := hits.length }

-- ── drop ──

/-- Modelled from the spec: pymilvus `drop_collection` removes the collection
if present; its behaviour on a missing name is backend-defined (spec section
4.2 marks it backend-dependent), given by `P.dropMissing`: `none` is a silent
no-op, `some e` raises `e`. -/
def client_drop_collection (P : BackendPolicy) (st : MilvusState) (name : String) :
    Except PyError MilvusState :=
  if name ∈ st.names then
    .ok { collections := st.collections.filter (fun c => c.name != name) }
  else
    match P.dropMissing name with
    | none => .ok st
    | some e => .error e

/-- src/milvus_manager.py `MilvusManager.drop_collection`: one backend drop
call, then unconditionally the dict `{collection: name, status: "dropped"}`
(no existence check of its own). -/
def MilvusManager.drop_collection (P : BackendPolicy) (st : MilvusState)
    (name : String) : Except PyError (MilvusState × CollectionResponse) :=
  match client_drop_collection P st name with
  | .error e => .error e
  | .ok st' => .ok (st', { collection := name, status := "dropped" })

/-- src/main.py `drop_collection` endpoint: delegates to the manager with no
try/except, so any backend exception propagates uncaught. -/
def drop_collection (P : BackendPolicy) (st : MilvusState) (name : String) :
    Except HTTPError CollectionResponse × MilvusState :=
  match MilvusManager.drop_collection P st name with
  | .error e => (.error (.unhandled e), st)
  | .ok (st', resp) => (.ok resp, st')

-- ── embedding endpoints and health ──

/-- src/main.py `embed_batch` endpoint: rejects an empty texts list with
HTTP 400 before calling the model; otherwise encodes the batch. -/
def embed_batch (f : String → List Float) (texts : List String) :
    Except HTTPError EmbedBatchResponse :=
  if texts.isEmpty then
    .error (.httpException 400 "texts 배열이 비어있습니다.")
  else
    let vectors := EmbeddingModel.encode_batch f texts
    .ok { embeddings := vectors, dimension := DIMENSION, count := vectors.length }

/-- The `model` sub-object of the health response in src/main.py. -/
structure HealthModel where
  loaded : Bool
  name : String
  dimension : Nat
deriving DecidableEq

/-- The `milvus` sub-object of the health response in src/main.py. -/
structure HealthMilvus where
  connected : Bool
  collections : List String
deriving DecidableEq

/-- The health response dict of src/main.py. -/
structure HealthResponse where
  status : String
  model : HealthModel
  milvus : HealthMilvus
deriving DecidableEq

/-- src/main.py `health` endpoint: `modelLoaded` is the model's `is_loaded`,
`clientConnected` is whether the Milvus client object exists, and
`probeResult` is the outcome of the `list_collections` probe when attempted.
Any probe failure is caught and folded into a degraded status; the handler
never re-raises it. -/
def health (modelLoaded : Bool) (clientConnected : Bool)
    (probeResult : Except PyError (List String)) : HealthResponse :=
  let milvusInfo :=
    if clientConnected then
      match probeResult with
      | .ok cols => (true, cols)
      | .error _ => (false, ([] : List String))
    else
      (false, [])
  { status := if modelLoaded && milvusInfo.1 then "ok" else "degraded",
    model := { loaded := modelLoaded, name := MODEL_NAME, dimension := DIMENSION },
    milvus := { connected := milvusInfo.1, collections := milvusInfo.2 } }

-- ── concrete fixtures and observation predicates ──

/-- True exactly when the outcome is a client-visible HTTP 404 not-found. -/
def isClientNotFound {α : Type} (r : Except HTTPError α) : Bool :=
  match r with
  | .error (.httpException code _) => code == 404
  | _ => false

/-- True exactly when the outcome is a client validation error (HTTP 400). -/
def isClientValidation {α : Type} (r : Except HTTPError α) : Bool :=
  match r with
  | .error (.httpException code _) => code == 400
  | _ => false

/-- A backend that raises `ValueError` for every failure and no-ops on drop
of a missing collection. -/
def valueErrorPolicy : BackendPolicy :=
  { notFoundErr := fun n => .valueError ("collection not found: " ++ n),
    dimErr := fun n => .valueError ("vector dimension mismatch for collection " ++ n),
    dropMissing := fun _ => none }

/-- A backend that raises a non-`ValueError` exception type for every failure,
including drop of a missing collection. -/
def nonValueErrorPolicy : BackendPolicy :=
  { notFoundErr := fun n => .milvusException ("collection not found: " ++ n),
    dimErr := fun n => .milvusException ("vector dimension mismatch for collection " ++ n),
    dropMissing := fun n => some (.milvusException ("collection not found: " ++ n)) }

/-- A backend with no collections. -/
def emptyState : MilvusState :=
  { collections := [] }

/-- A backend holding one empty collection `"c"` of dimension 2. -/
def oneCollState : MilvusState :=
  { collections := [{ name := "c", dim := 2, description := "", rows := [], nextId := 0 }] }

-- ── helper lemmas ──

/-- A collection name is listed exactly when the backend lookup by name
succeeds. -/
theorem find?_isSome_of_mem_names (st : MilvusState) (name : String)
    (h : name ∈ client_list_collections st) :
    (st.collections.find? (fun c => c.name == name)).isSome := by
  rw [List.find?_isSome]
  simp only [client_list_collections, MilvusState.names, List.mem_map] at h
  obtain ⟨c, hcmem, hcname⟩ := h
  exact ⟨c, hcmem, by simp [hcname]⟩

/-- An unlisted collection name makes the backend lookup fail. -/
theorem find?_eq_none_of_not_mem_names (st : MilvusState) (name : String)
    (h : name ∉ client_list_collections st) :
    st.collections.find? (fun c => c.name == name) = none := by
  rw [List.find?_eq_none]
  intro c hcmem hc
  exact h (by
    simp only [client_list_collections, MilvusState.names, List.mem_map]
    exact ⟨c, hcmem, by simpa using hc⟩)

/-- In auto-embed mode the insert loop never fails and builds exactly one
record per item, in order, from the item's text. -/
theorem buildInsertData_auto (f : String → List Float) (items : List InsertItem) :
    buildInsertData f true items = .ok (items.map (autoRow f)) := by
  induction items with
  | nil => rfl
  | cons item rest ih =>
    simp [buildInsertData, ih, autoRow]

/-- Without auto-embed, an item with no embedding makes the insert loop abort
with the HTTP 400 validation error. -/
theorem buildInsertData_missing (f : String → List Float) (items : List InsertItem)
    (h : ∃ it ∈ items, it.embedding = none) :
    buildInsertData f false items
      = .error (.httpException 400 "auto_embed=False일 때 각 item에 embedding이 필요합니다.") := by
  induction items with
  | nil => simp at h
  | cons item rest ih =>
    obtain ⟨it, hmem, hnone⟩ := h
    rcases List.mem_cons.mp hmem with heq | htail
    · subst heq
      simp [buildInsertData, hnone]
    · cases hcase : item.embedding with
      | none => simp [buildInsertData, hcase]
      | some v =>
        simp [buildInsertData, hcase, ih ⟨it, htail, hnone⟩]

/-- The insert loop preserves the batch size. -/
theorem buildInsertData_length (f : String → List Float) (autoEmbed : Bool)
    (items : List InsertItem) (data : List Row)
    (h : buildInsertData f autoEmbed items = .ok data) :
    data.length = items.length := by
  induction items generalizing data with
  | nil =>
    simp only [buildInsertData] at h
    cases h
    rfl
  | cons item rest ih =>
    simp only [buildInsertData] at h
    split at h
    · exact absurd h (by simp)
    · split at h
      · exact absurd h (by simp)
      · next tail heq =>
        cases h
        simp [ih tail heq]

-- ── claim theorems ──

/-- C3: for every collection name, CreateCollection returns status "created"
on the first creation and "already_exists" on a subsequent creation with the
same name (even with a different dimension or description, i.e. no
re-validation against the existing collection), the second call leaves the
stored state unchanged, and after both calls ListCollections contains the
name exactly once. -/
theorem create_collection_idempotent (st : MilvusState) (name : String)
    (d₁ d₂ : Nat) (desc₁ desc₂ : String)
    (h : name ∉ client_list_collections st) :
    (create_collection st { name := name, dimension := d₁, description := desc₁ }).2.status
      = "created" ∧
    (create_collection
        (create_collection st { name := name, dimension := d₁, description := desc₁ }).1
        { name := name, dimension := d₂, description := desc₂ }).2.status
      = "already_exists" ∧
    (create_collection
        (create_collection st { name := name, dimension := d₁, description := desc₁ }).1
        { name := name, dimension := d₂, description := desc₂ }).1
      = (create_collection st { name := name, dimension := d₁, description := desc₁ }).1 ∧
    (list_collections
        (create_collection
          (create_collection st { name := name, dimension := d₁, description := desc₁ }).1
          { name := name, dimension := d₂, description := desc₂ }).1).count name
      = 1 := by
  have h₁ : create_collection st { name := name, dimension := d₁, description := desc₁ }
      = (client_create_collection st name d₁ desc₁,
         { collection := name, status := "created" }) := by
    simp [create_collection, MilvusManager.create_collection, h]
  have hmem : name ∈ client_list_collections (client_create_collection st name d₁ desc₁) := by
    simp [client_list_collections, MilvusState.names, client_create_collection]
  have h₂ : create_collection (client_create_collection st name d₁ desc₁)
      { name := name, dimension := d₂, description := desc₂ }
      = (client_create_collection st name d₁ desc₁,
         { collection := name, status := "already_exists" }) := by
    simp [create_collection, MilvusManager.create_collection, hmem]
  have hcount : (client_list_collections (client_create_collection st name d₁ desc₁)).count name
      = 1 := by
    have h0 : (client_list_collections st).count name = 0 :=
      List.count_eq_zero.mpr h
    simp only [client_list_collections, MilvusState.names, client_create_collection,
      List.map_append, List.count_append] at h0 ⊢
    simp [h0]
  rw [h₁]
  rw [h₂]
  exact ⟨rfl, rfl, rfl, hcount⟩

/-- Witness for C3 at a concrete input: collection "c" created twice from an
empty backend, with two different requested dimensions. -/
theorem create_collection_idempotent_witness :
    ("c" ∉ client_list_collections emptyState) ∧
    ((create_collection emptyState { name := "c", dimension := 1024, description := "" }).2.status
        = "created" ∧
     (create_collection
        (create_collection emptyState { name := "c", dimension := 1024, description := "" }).1
        { name := "c", dimension := 768, description := "other" }).2.status
        = "already_exists" ∧
     (create_collection
        (create_collection emptyState { name := "c", dimension := 1024, description := "" }).1
        { name := "c", dimension := 768, description := "other" }).1
        = (create_collection emptyState { name := "c", dimension := 1024, description := "" }).1 ∧
     (list_collections
        (create_collection
          (create_collection emptyState { name := "c", dimension := 1024, description := "" }).1
          { name := "c", dimension := 768, description := "other" }).1).count "c"
        = 1) :=
  ⟨by decide,
   create_collection_idempotent emptyState "c" 1024 768 "" "other" (by decide)⟩

/-- C6: Health reports status "ok" exactly when the model is loaded, the
storage client exists, and the listCollections probe succeeds; any probe
failure is folded into "degraded" (health is a total function of the probe
outcome, so nothing is thrown upward), and the reported model.loaded flag
equals the model state regardless of the storage arguments. -/
theorem health_status_ok_iff (modelLoaded clientConnected : Bool)
    (probeResult : Except PyError (List String)) :
    ((health modelLoaded clientConnected probeResult).status = "ok" ↔
      (modelLoaded = true ∧ clientConnected = true ∧
        ∃ cols, probeResult = .ok cols)) ∧
    ((health modelLoaded clientConnected probeResult).status = "ok" ∨
      (health modelLoaded clientConnected probeResult).status = "degraded") ∧
    (health modelLoaded clientConnected probeResult).model.loaded = modelLoaded := by
  cases modelLoaded <;> cases clientConnected <;> cases probeResult <;>
    simp [health]

/-- C9: batch encoding produces exactly one output vector per input text, in
input order, and each component equals the single-text encoding of the
corresponding input. -/
theorem encode_batch_componentwise (f : String → List Float) (texts : List String)
    (i : Nat) (h : i < texts.length) :
    (EmbeddingModel.encode_batch f texts).length = texts.length ∧
    (EmbeddingModel.encode_batch f texts).getD i []
      = EmbeddingModel.encode f (texts.getD i "") := by
  constructor
  · simp [EmbeddingModel.encode_batch]
  · simp [EmbeddingModel.encode_batch, EmbeddingModel.encode,
      List.getD_eq_getElem?_getD, List.getElem?_map, List.getElem?_eq_getElem h]

/-- Witness for C9 at a concrete input: a two-text batch, index 1. -/
theorem encode_batch_componentwise_witness :
    ((1 : Nat) < (["a", "b"] : List String).length) ∧
    ((EmbeddingModel.encode_batch (fun _ => [1.0]) ["a", "b"]).length
        = (["a", "b"] : List String).length ∧
     (EmbeddingModel.encode_batch (fun _ => [1.0]) ["a", "b"]).getD 1 []
        = EmbeddingModel.encode (fun _ => [1.0]) ((["a", "b"] : List String).getD 1 "")) :=
  ⟨by decide, encode_batch_componentwise (fun _ => [1.0]) ["a", "b"] 1 (by decide)⟩

/-- C1: for every auto-embed insert into an existing collection, the handler
builds exactly one record per item in input order, computing each embedding
from the item's text (any client-supplied embedding is discarded: `autoRow`
never reads it), issues exactly one storage insert call carrying the full
batch, and returns the total insert count. -/
theorem insert_autoEmbed_one_batch_call (f : String → List Float)
    (st : MilvusState) (name : String) (items : List InsertItem)
    (hc : name ∈ client_list_collections st) :
    (insert f st name { items := items, auto_embed := true }).storeInsertCalls
      = [(name, items.map (autoRow f))] ∧
    (insert f st name { items := items, auto_embed := true }).response
      = .ok { insert_count := items.length } := by
  obtain ⟨col, hfind⟩ := Option.isSome_iff_exists.mp (find?_isSome_of_mem_names st name hc)
  simp [insert, buildInsertData_auto, MilvusManager.insert, client_insert, hfind,
    MilvusManager.insert_response]

/-- Witness for C1 at a concrete input: two items, the first carrying a
client-supplied embedding that the auto-embed path discards. -/
theorem insert_autoEmbed_one_batch_call_witness :
    ("c" ∈ client_list_collections oneCollState) ∧
    ((insert (fun _ => [0.5, 0.5]) oneCollState "c"
        { items := [{ text := "a", embedding := some [9.0] }, { text := "b" }],
          auto_embed := true }).storeInsertCalls
      = [("c", ([{ text := "a", embedding := some [9.0] }, { text := "b" }]
            : List InsertItem).map (autoRow (fun _ => [0.5, 0.5])))] ∧
     (insert (fun _ => [0.5, 0.5]) oneCollState "c"
        { items := [{ text := "a", embedding := some [9.0] }, { text := "b" }],
          auto_embed := true }).response
      = .ok { insert_count := 2 }) :=
  ⟨by decide,
   insert_autoEmbed_one_batch_call (fun _ => [0.5, 0.5]) oneCollState "c"
     [{ text := "a", embedding := some [9.0] }, { text := "b" }] (by decide)⟩

/-- C2: for every non-auto-embed insert containing at least one item with no
embedding, the handler fails with the HTTP 400 missing-embedding validation
error, issues no storage insert call, and leaves the backend state (hence
every collection's row count) unchanged. -/
theorem insert_missing_embedding_no_write (f : String → List Float)
    (st : MilvusState) (name : String) (items : List InsertItem)
    (h : ∃ it ∈ items, it.embedding = none) :
    (insert f st name { items := items, auto_embed := false }).response
      = .error (.httpException 400 "auto_embed=False일 때 각 item에 embedding이 필요합니다.") ∧
    (insert f st name { items := items, auto_embed := false }).storeInsertCalls = [] ∧
    (insert f st name { items := items, auto_embed := false }).finalState = st := by
  simp [insert, buildInsertData_missing f items h]

/-- Witness for C2 at a concrete input: one item with no embedding field. -/
theorem insert_missing_embedding_no_write_witness :
    (∃ it ∈ [({ text := "a" } : InsertItem)], it.embedding = none) ∧
    ((insert (fun _ => [0.0, 0.0]) oneCollState "c"
        { items := [{ text := "a" }], auto_embed := false }).response
      = .error (.httpException 400 "auto_embed=False일 때 각 item에 embedding이 필요합니다.") ∧
     (insert (fun _ => [0.0, 0.0]) oneCollState "c"
        { items := [{ text := "a" }], auto_embed := false }).storeInsertCalls = [] ∧
     (insert (fun _ => [0.0, 0.0]) oneCollState "c"
        { items := [{ text := "a" }], auto_embed := false }).finalState = oneCollState) :=
  ⟨⟨{ text := "a" }, List.mem_singleton.mpr rfl, rfl⟩,
   insert_missing_embedding_no_write (fun _ => [0.0, 0.0]) oneCollState "c"
     [{ text := "a" }] ⟨{ text := "a" }, List.mem_singleton.mpr rfl, rfl⟩⟩

/-- C10: the manager's insert response computes insert_count from the input
batch length, ignoring the backend-reported count, and every successful
insert request therefore reports exactly the number of items in the
request. -/
theorem insert_count_from_input_length (data : List Row)
    (reply : BackendInsertReply) (f : String → List Float) (st : MilvusState)
    (name : String) (req : InsertRequest) (resp : InsertResponse)
    (h : (insert f st name req).response = .ok resp) :
    (MilvusManager.insert_response data reply).insert_count = data.length ∧
    resp.insert_count = req.items.length := by
  refine ⟨rfl, ?_⟩
  simp only [insert] at h
  cases hbuild : buildInsertData f req.auto_embed req.items with
  | error e => rw [hbuild] at h; simp at h
  | ok data' =>
    rw [hbuild] at h
    cases hins : client_insert st name data' with
    | error e =>
      simp [MilvusManager.insert, hins] at h
    | ok p =>
      obtain ⟨st', rep⟩ := p
      simp only [MilvusManager.insert, hins, Except.ok.injEq] at h
      rw [← h]
      simp [MilvusManager.insert_response,
        buildInsertData_length f req.auto_embed req.items data' hbuild]

/-- Witness for C10 at a concrete input: a one-item successful insert, and a
backend reply whose reported count (5) differs from the batch length (0). -/
theorem insert_count_from_input_length_witness :
    ((insert (fun _ => [0.0, 0.0]) oneCollState "c"
        { items := [{ text := "a" }], auto_embed := true }).response
      = .ok { insert_count := 1 }) ∧
    ((MilvusManager.insert_response [] { insert_cnt := 5, ids := [1, 2, 3] }).insert_count
        = ([] : List Row).length ∧
     ({ insert_count := 1 } : InsertResponse).insert_count
        = ({ items := [{ text := "a" }], auto_embed := true } : InsertRequest).items.length) :=
  ⟨rfl,
   insert_count_from_input_length [] { insert_cnt := 5, ids := [1, 2, 3] }
     (fun _ => [0.0, 0.0]) oneCollState "c"
     { items := [{ text := "a" }], auto_embed := true } { insert_count := 1 } rfl⟩

/-- C4 counterexample: against the never-created name "ghost", when the
backend's not-found exception is not a ValueError, neither search endpoint
surfaces a client-visible 404 — the exception propagates unhandled — refuting
"regardless of which exception type the storage backend raises". -/
theorem search_missing_collection_counterexample :
    isClientNotFound (search nonValueErrorPolicy (fun _ => [0.0]) emptyState "ghost"
        { query := "q" }) = false ∧
    isClientNotFound (search_by_vector nonValueErrorPolicy emptyState "ghost"
        { query_vector := [0.0] }) = false ∧
    search_by_vector nonValueErrorPolicy emptyState "ghost" { query_vector := [0.0] }
      = .error (.unhandled (.milvusException ("collection not found: " ++ "ghost"))) :=
  ⟨rfl, rfl, rfl⟩

/-- C4 (amended): against a never-created collection name, both search
endpoints fail, and the failure is surfaced as HTTP 404 exactly when the
backend raises its not-found error as a ValueError; any other backend
exception type propagates uncaught as a generic server error. -/
theorem search_missing_collection_surface (P : BackendPolicy)
    (f : String → List Float) (st : MilvusState) (name : String)
    (reqT : SearchRequest) (reqV : SearchByVectorRequest)
    (h : name ∉ client_list_collections st) :
    search P f st name reqT
      = .error (match P.notFoundErr name with
          | .valueError msg => .httpException 404 msg
          | e => .unhandled e) ∧
    search_by_vector P st name reqV
      = .error (match P.notFoundErr name with
          | .valueError msg => .httpException 404 msg
          | e => .unhandled e) := by
  have hfind := find?_eq_none_of_not_mem_names st name h
  cases hP : P.notFoundErr name <;>
    simp [search, search_by_vector, MilvusManager.search, client_search, hfind, hP]

/-- Witness for the amended C4 at a concrete input: a ValueError-raising
backend yields HTTP 404 on both endpoints. -/
theorem search_missing_collection_surface_witness :
    ("ghost" ∉ client_list_collections emptyState) ∧
    (search valueErrorPolicy (fun _ => [0.0]) emptyState "ghost" { query := "q" }
        = .error (.httpException 404 ("collection not found: " ++ "ghost")) ∧
     search_by_vector valueErrorPolicy emptyState "ghost" { query_vector := [0.0] }
        = .error (.httpException 404 ("collection not found: " ++ "ghost"))) :=
  ⟨by decide,
   search_missing_collection_surface valueErrorPolicy (fun _ => [0.0]) emptyState
     "ghost" { query := "q" } { query_vector := [0.0] } (by decide)⟩

/-- C5 counterexample: a search-by-vector with a length-3 vector against the
2-dimensional collection "c" is surfaced as HTTP 404 (when the backend raises
ValueError), not as a client validation error (HTTP 400), refuting
"surfaced as a client validation error". -/
theorem dim_mismatch_counterexample :
    search_by_vector valueErrorPolicy oneCollState "c"
        { query_vector := [0.0, 0.0, 0.0] }
      = .error (.httpException 404 ("vector dimension mismatch for collection " ++ "c")) ∧
    isClientValidation (search_by_vector valueErrorPolicy oneCollState "c"
        { query_vector := [0.0, 0.0, 0.0] }) = false :=
  ⟨rfl, rfl⟩

/-- C5 (amended): the handler performs no local dimension validation; a query
vector whose length differs from the collection's declared dimension reaches
the backend, whose error is surfaced as HTTP 404 when raised as a ValueError
and propagates uncaught otherwise — never as a client validation error
(HTTP 400) — and no search results are returned. -/
theorem search_by_vector_dim_mismatch_never_400 (P : BackendPolicy)
    (st : MilvusState) (name : String) (col : Collection)
    (req : SearchByVectorRequest)
    (hfind : st.collections.find? (fun c => c.name == name) = some col)
    (hdim : req.query_vector.length ≠ col.dim) :
    search_by_vector P st name req
      = .error (match P.dimErr name with
          | .valueError msg => .httpException 404 msg
          | e => .unhandled e) ∧
    isClientValidation (search_by_vector P st name req) = false := by
  have hmain : search_by_vector P st name req
      = .error (match P.dimErr name with
          | .valueError msg => .httpException 404 msg
          | e => .unhandled e) := by
    cases hP : P.dimErr name <;>
      simp [search_by_vector, MilvusManager.search, client_search, hfind, hdim, hP]
  refine ⟨hmain, ?_⟩
  rw [hmain]
  cases hP : P.dimErr name <;> simp [hP, isClientValidation]

/-- Witness for the amended C5 at a concrete input: a length-3 vector against
the 2-dimensional collection "c" with a non-ValueError backend. -/
theorem search_by_vector_dim_mismatch_never_400_witness :
    (oneCollState.collections.find? (fun c => c.name == "c")
        = some { name := "c", dim := 2, description := "", rows := [], nextId := 0 }) ∧
    (([0.0, 0.0, 0.0] : List Float).length ≠ 2) ∧
    (search_by_vector nonValueErrorPolicy oneCollState "c"
        { query_vector := [0.0, 0.0, 0.0] }
      = .error (.unhandled (.milvusException
          ("vector dimension mismatch for collection " ++ "c"))) ∧
     isClientValidation (search_by_vector nonValueErrorPolicy oneCollState "c"
        { query_vector := [0.0, 0.0, 0.0] }) = false) :=
  ⟨rfl, by decide,
   search_by_vector_dim_mismatch_never_400 nonValueErrorPolicy oneCollState "c"
     { name := "c", dim := 2, description := "", rows := [], nextId := 0 }
     { query_vector := [0.0, 0.0, 0.0] } rfl (by decide)⟩

/-- C7 counterexample: an insert request with zero items is not rejected —
the handler issues one storage insert call carrying the empty batch and
returns insert_count 0, refuting "fails with EmptyBatch ... before any
embedding or storage call" for the insert operation. -/
theorem insert_empty_batch_counterexample :
    (insert (fun _ => [0.0, 0.0]) oneCollState "c"
        { items := [], auto_embed := true }).response
      = .ok { insert_count := 0 } ∧
    (insert (fun _ => [0.0, 0.0]) oneCollState "c"
        { items := [], auto_embed := true }).storeInsertCalls
      = [("c", [])] ∧
    isClientValidation (insert (fun _ => [0.0, 0.0]) oneCollState "c"
        { items := [], auto_embed := true }).response = false :=
  ⟨rfl, rfl, rfl⟩

/-- C7 (amended): only batch embedding rejects an empty input with an HTTP
400 validation error before any model call; insert performs no emptiness
check — an empty items list reaches the storage layer as one insert call
with an empty batch and (for an existing collection) returns
insert_count 0. -/
theorem empty_batch_embed_only (f : String → List Float) (st : MilvusState)
    (name : String) (autoEmbed : Bool)
    (hc : name ∈ client_list_collections st) :
    embed_batch f [] = .error (.httpException 400 "texts 배열이 비어있습니다.") ∧
    (insert f st name { items := [], auto_embed := autoEmbed }).response
      = .ok { insert_count := 0 } ∧
    (insert f st name { items := [], auto_embed := autoEmbed }).storeInsertCalls
      = [(name, [])] := by
  obtain ⟨col, hfind⟩ := Option.isSome_iff_exists.mp (find?_isSome_of_mem_names st name hc)
  refine ⟨rfl, ?_, ?_⟩ <;>
    simp [insert, buildInsertData, MilvusManager.insert, client_insert, hfind,
      MilvusManager.insert_response]

/-- Witness for the amended C7 at a concrete input. -/
theorem empty_batch_embed_only_witness :
    ("c" ∈ client_list_collections oneCollState) ∧
    (embed_batch (fun _ => [0.0, 0.0]) []
        = .error (.httpException 400 "texts 배열이 비어있습니다.") ∧
     (insert (fun _ => [0.0, 0.0]) oneCollState "c"
        { items := [], auto_embed := false }).response
        = .ok { insert_count := 0 } ∧
     (insert (fun _ => [0.0, 0.0]) oneCollState "c"
        { items := [], auto_embed := false }).storeInsertCalls
        = [("c", [])]) :=
  ⟨by decide,
   empty_batch_embed_only (fun _ => [0.0, 0.0]) oneCollState "c" false (by decide)⟩

/-- C8 counterexample: dropping the never-created name "missing" with a
backend that raises a not-found exception does not surface a client-visible
not-found condition — the exception propagates unhandled as a generic server
error — refuting "yields CollectionNotFound surfaced as a client-visible
not-found condition". -/
theorem drop_missing_counterexample :
    (drop_collection nonValueErrorPolicy emptyState "missing").1
      = .error (.unhandled (.milvusException ("collection not found: " ++ "missing"))) ∧
    isClientNotFound (drop_collection nonValueErrorPolicy emptyState "missing").1
      = false :=
  ⟨rfl, rfl⟩

/-- C8 (amended): the drop endpoint never surfaces a client-visible 404 for a
never-created name — an idempotent backend makes it return status "dropped"
with the state unchanged, and a raising backend makes the exception propagate
unhandled; for an existing name it returns status "dropped" and the name no
longer appears in ListCollections. -/
theorem drop_collection_never_client_notfound (P : BackendPolicy)
    (st : MilvusState) (name : String) :
    (name ∉ client_list_collections st →
      isClientNotFound (drop_collection P st name).1 = false ∧
      (P.dropMissing name = none →
        drop_collection P st name
          = (.ok { collection := name, status := "dropped" }, st)) ∧
      (∀ e, P.dropMissing name = some e →
        drop_collection P st name = (.error (.unhandled e), st))) ∧
    (name ∈ client_list_collections st →
      (drop_collection P st name).1
        = .ok { collection := name, status := "dropped" } ∧
      name ∉ list_collections (drop_collection P st name).2) := by
  constructor
  · intro h
    simp only [client_list_collections] at h
    cases hd : P.dropMissing name with
    | none =>
      have hdrop : client_drop_collection P st name = .ok st := by
        unfold client_drop_collection
        rw [if_neg h, hd]
      refine ⟨?_, fun _ => ?_, fun e he => ?_⟩
      · simp [drop_collection, MilvusManager.drop_collection, hdrop, isClientNotFound]
      · simp [drop_collection, MilvusManager.drop_collection, hdrop]
      · cases he
    | some e₀ =>
      have hdrop : client_drop_collection P st name = .error e₀ := by
        unfold client_drop_collection
        rw [if_neg h, hd]
      refine ⟨?_, fun hnone => ?_, fun e he => ?_⟩
      · simp [drop_collection, MilvusManager.drop_collection, hdrop, isClientNotFound]
      · cases hnone
      · injection he with he'
        subst he'
        simp [drop_collection, MilvusManager.drop_collection, hdrop]
  · intro h
    simp only [client_list_collections] at h
    have hdrop : client_drop_collection P st name
        = .ok { collections := st.collections.filter (fun c => c.name != name) } := by
      unfold client_drop_collection
      rw [if_pos h]
    constructor
    · simp [drop_collection, MilvusManager.drop_collection, hdrop]
    · simp [drop_collection, MilvusManager.drop_collection, hdrop,
        list_collections, MilvusManager.list_collections, client_list_collections,
        MilvusState.names, List.mem_map, List.mem_filter, bne_iff_ne]

/-- Witness for the amended C8 at concrete inputs: a no-op backend drop of a
missing name, and the drop of the existing collection "c". -/
theorem drop_collection_never_client_notfound_witness :
    (isClientNotFound (drop_collection valueErrorPolicy emptyState "missing").1
        = false) ∧
    ((drop_collection valueErrorPolicy oneCollState "c").1
        = .ok { collection := "c", status := "dropped" }) ∧
    ("c" ∉ list_collections (drop_collection valueErrorPolicy oneCollState "c").2) :=
  ⟨((drop_collection_never_client_notfound valueErrorPolicy emptyState "missing").1
      (by decide)).1,
   ((drop_collection_never_client_notfound valueErrorPolicy oneCollState "c").2
      (by decide)).1,
   ((drop_collection_never_client_notfound valueErrorPolicy oneCollState "c").2
      (by decide)).2⟩

end EmbeddingService

